import Mathlib

/-!
Shallow embedding of `node/e2e-tests/test-runner/src/utils.rs` from the Acala
repository: the `base_path`, `logger` and `default_config` helpers of the e2e
test runner, together with the fragments of the external crates (`log`,
`env_logger`, `sc_service`, `sc_network`) that those helpers exercise.

Conventions of the embedding:
* The environment variable `DB_BASE_PATH` is passed as an `Option String`
  parameter (the value of `std::env::var("DB_BASE_PATH").ok()`), and the
  outcome of `BasePath::new_temp_dir()` as a second `Option String` parameter
  (`none` models a failed temporary-directory creation).
* A Rust `panic!` / `.expect(msg)` is modelled as `Except.error msg`.
* The global logger of the `log` crate is modelled as an explicit
  `Option Builder` state threaded through `tryInit`.
* `env_logger::builder()` is modelled with `RUST_LOG` unset (the directive
  list starts empty, as in the test environment) while the initial write
  style read from the environment is kept as a parameter, so that theorems
  can quantify over it.
* The spawned tokio forwarding task is modelled by `runForwardTask`, applied
  to every entry the format callback schedules.
-/

namespace AcalaUtils

/-- Decidable equality for `Except` (not provided by the core library). -/
instance {ε : Type u} {α : Type v} [DecidableEq ε] [DecidableEq α] :
    DecidableEq (Except ε α) := fun x y =>
  match x, y with
  | .error a, .error b =>
    if h : a = b then .isTrue (h ▸ rfl) else .isFalse fun hc => h (Except.error.inj hc)
  | .error _, .ok _ => .isFalse fun hc => Except.noConfusion hc
  | .ok _, .error _ => .isFalse fun hc => Except.noConfusion hc
  | .ok a, .ok b =>
    if h : a = b then .isTrue (h ▸ rfl) else .isFalse fun hc => h (Except.ok.inj hc)

/-- Severity of a log record (the `log` crate's `Level`).
Numerically `Error = 1 < Warn = 2 < Info = 3 < Debug = 4 < Trace = 5`. -/
inductive Level
  | error
  | warn
  | info
  | debug
  | trace
deriving DecidableEq

/-- Numeric value of a `Level`, as in the `log` crate's `usize` repr. -/
def Level.toNat : Level → Nat
  | .error => 1
  | .warn => 2
  | .info => 3
  | .debug => 4
  | .trace => 5

/-- `Display` of a `Level` (the `log` crate prints the upper-case name). -/
def Level.name : Level → String
  | .error => "ERROR"
  | .warn => "WARN"
  | .info => "INFO"
  | .debug => "DEBUG"
  | .trace => "TRACE"

/-- Maximum enabled severity (the `log` crate's `LevelFilter`).
Numerically `Off = 0 < Error = 1 < Warn = 2 < Info = 3 < Debug = 4 < Trace = 5`. -/
inductive LevelFilter
  | off
  | error
  | warn
  | info
  | debug
  | trace
deriving DecidableEq

/-- Numeric value of a `LevelFilter`. -/
def LevelFilter.toNat : LevelFilter → Nat
  | .off => 0
  | .error => 1
  | .warn => 2
  | .info => 3
  | .debug => 4
  | .trace => 5

/-- The `log` crate's `level <= directive.level` comparison: a record of
severity `lvl` passes a filter level `f` iff `lvl`'s numeric value is at most
`f`'s. -/
def levelPasses (lvl : Level) (f : LevelFilter) : Bool :=
  decide (lvl.toNat ≤ f.toNat)

/-- A log record: severity, target module path, and formatted message
(`record.level()`, `record.target()`, `record.args()`). -/
structure Record where
  level : Level
  target : String
  args : String
deriving DecidableEq

/-- `format!("{} {} {}", record.level(), record.target(), record.args())`
(utils.rs line 55): the `entry` string built by the format callback. -/
def formatEntry (r : Record) : String :=
  r.level.name ++ " " ++ r.target ++ " " ++ r.args

/-- What one invocation of the format callback emits: the bytes written to the
formatter buffer (stdout) and the list of strings scheduled for sink sends. -/
structure Emission where
  stdout : String
  scheduled : List String
deriving DecidableEq

/-- The format callback installed by `logger` (utils.rs lines 54-63):
`writeln!(buf, "{}", entry)` writes `entry` plus a newline, and exactly one
task sending `entry` (without the newline) is spawned on the executor. -/
def formatCallback (r : Record) : Emission :=
  { stdout := formatEntry r ++ "\n", scheduled := [formatEntry r] }

/-- A filter directive of `env_logger` (`filter::Directive`): an optional
module-name pattern and a maximum level. -/
structure Directive where
  dname : Option String
  dlevel : LevelFilter
deriving DecidableEq

/-- Length of a directive's name, `0` for the anonymous directive (the sort
key used by `env_logger`'s `filter::Builder::build`). -/
def Directive.nameLen (d : Directive) : Nat :=
  match d.dname with
  | some n => n.length
  | none => 0

/-- `listStartsWith s p` decides whether `p` is an initial segment of `s`
(the byte-level `str::starts_with` of Rust, on character lists). -/
def listStartsWith : List Char → List Char → Bool
  | _, [] => true
  | [], _ :: _ => false
  | c :: cs, d :: ds => if c = d then listStartsWith cs ds else false

/-- `target.starts_with(name)` on strings. -/
def strStartsWith (s p : String) : Bool :=
  listStartsWith s.data p.data

/-- Whether a directive applies to a target: an anonymous directive applies to
everything, a named one iff its name is a literal initial segment of the
target (`env_logger`'s `enabled` match). -/
def Directive.applies (d : Directive) (target : String) : Bool :=
  match d.dname with
  | some n => strStartsWith target n
  | none => true

/-- Stable insertion of a directive into a list sorted by ascending name
length: the inserted element goes before existing elements of equal length,
matching the stability of Rust's `sort_by`. -/
def insertByLen (d : Directive) : List Directive → List Directive
  | [] => [d]
  | e :: es => if d.nameLen ≤ e.nameLen then d :: e :: es else e :: insertByLen d es

/-- Stable sort of directives by ascending name length, as performed by
`env_logger`'s `filter::Builder::build`. -/
def sortByLen : List Directive → List Directive
  | [] => []
  | d :: ds => insertByLen d (sortByLen ds)

/-- `env_logger`'s `enabled` scan over the (already reversed, i.e.
longest-name-first) directive list: the first directive that applies to the
target decides; no applicable directive means the record is rejected. -/
def enabledFrom (lvl : Level) (target : String) : List Directive → Bool
  | [] => false
  | d :: ds => if d.applies target then levelPasses lvl d.dlevel else enabledFrom lvl target ds

/-- `env_logger::WriteStyle`: whether styled (colorized) output is chosen
automatically, forced on, or forced off. -/
inductive WriteStyle
  | auto
  | always
  | never
deriving DecidableEq

/-- Whether a write style forces colorized output on regardless of terminal
detection. -/
def WriteStyle.forcesColor : WriteStyle → Bool
  | .always => true
  | .auto => false
  | .never => false

/-- The observable configuration accumulated by `env_logger::Builder` in
`logger`: the pushed filter directives, the write style, and the test flag. -/
structure Builder where
  directives : List Directive
  writeStyle : WriteStyle
  isTestFlag : Bool
deriving DecidableEq

/-- `env_logger::builder()` with `RUST_LOG` unset: no directives yet, write
style as read from the environment (kept as a parameter), test flag off. -/
def Builder.fromDefaultEnv (envStyle : WriteStyle) : Builder :=
  { directives := [], writeStyle := envStyle, isTestFlag := false }

/-- `builder.filter_module(m, l)`: pushes one named directive at the end of
the directive list. -/
def Builder.filterModule (b : Builder) (m : String) (l : LevelFilter) : Builder :=
  { b with directives := b.directives ++ [{ dname := some m, dlevel := l }] }

/-- `builder.write_style(w)`: replaces the write style. -/
def Builder.setWriteStyle (b : Builder) (w : WriteStyle) : Builder :=
  { b with writeStyle := w }

/-- `builder.is_test(t)`. -/
def Builder.setTest (b : Builder) (t : Bool) : Builder :=
  { b with isTestFlag := t }

/-- `env_logger`'s `filter::Builder::build`: an empty directive list becomes
the single anonymous `Error` directive; otherwise the directives are stably
sorted by ascending name length. -/
def Builder.buildDirectives (b : Builder) : List Directive :=
  if b.directives.isEmpty then [{ dname := none, dlevel := .error }]
  else sortByLen b.directives

/-- Whether the built filter accepts a record of severity `lvl` from `target`:
the directive list is scanned longest-name-first (`iter().rev()`). -/
def Builder.enabled (b : Builder) (lvl : Level) (target : String) : Bool :=
  enabledFrom lvl target b.buildDirectives.reverse

/-- The builder assembled by `logger` (utils.rs lines 47-70): start from
`env_logger::builder()`, force `WriteStyle::Always`, push one
`filter_module` directive per `(module, level)` pair in the order given,
set `is_test(true)`. The format callback it installs is `formatCallback`. -/
def logger (envStyle : WriteStyle) (log_targets : List (String × LevelFilter)) : Builder :=
  let b := Builder.fromDefaultEnv envStyle
  let b := b.setWriteStyle .always
  let b := log_targets.foldl (fun b p => b.filterModule p.1 p.2) b
  b.setTest true

/-- One log call against an installed builder: if the filter accepts the
record the format callback runs and its emission is produced, otherwise
nothing is emitted. -/
def logCall (b : Builder) (r : Record) : Option Emission :=
  if b.enabled r.level r.target then some (formatCallback r) else none

/-- `log::set_logger` semantics behind `try_init`: installs the builder only
when no logger is installed yet; returns the new state and whether the
installation succeeded. -/
def tryInit (st : Option Builder) (b : Builder) : Option Builder × Bool :=
  match st with
  | none => (some b, true)
  | some c => (some c, false)

/-- The whole `logger` function as a state transition on the process-wide
logger: build the builder, then `let _ = builder.is_test(true).try_init()`
(utils.rs line 69), ignoring the result. -/
def installLogger (st : Option Builder) (envStyle : WriteStyle)
    (ts : List (String × LevelFilter)) : Option Builder × Bool :=
  tryInit st (logger envStyle ts)

/-- A log call against the process-wide logger state: no logger installed
means no output. -/
def globalLogCall (st : Option Builder) (r : Record) : Option Emission :=
  match st with
  | none => none
  | some b => logCall b r

/-- Outcome of a spawned task: ran to completion, or aborted by a panic with
the given message. -/
inductive TaskOutcome
  | completed
  | panicked (msg : String)
deriving DecidableEq

/-- Observable behaviour of one spawned forwarding task: its outcome, how many
`send` operations it attempted, and what (if anything) the sink received. -/
structure TaskRun where
  outcome : TaskOutcome
  sendAttempts : Nat
  delivered : Option String
deriving DecidableEq

/-- The spawned forwarding task (utils.rs lines 59-61):
`log_sink_clone.send(entry).await.expect("log_stream is dropped")` — exactly
one send attempt; on an open sink the entry is delivered, on a closed sink
the send fails and the task panics with the expect message. -/
def runForwardTask (sinkOpen : Bool) (entry : String) : TaskRun :=
  if sinkOpen then { outcome := .completed, sendAttempts := 1, delivered := some entry }
  else { outcome := .panicked "log_stream is dropped", sendAttempts := 1, delivered := none }

/-- One log call together with the later execution of every forwarding task it
scheduled, against a sink that is open (`true`) or closed (`false`). -/
def logCallWithSink (b : Builder) (sinkOpen : Bool) (r : Record) :
    Option (Emission × List TaskRun) :=
  match logCall b r with
  | none => none
  | some e => some (e, e.scheduled.map (runForwardTask sinkOpen))

/-- `sc_service::BasePath`: either a permanent caller-given path
(`BasePath::new`) or a temporary directory deleted on drop
(`BasePath::new_temp_dir`). -/
inductive BasePath
  | permanent (path : String)
  | temporary (path : String)
deriving DecidableEq

/-- `BasePath::path()`. -/
def BasePath.pathOf : BasePath → String
  | .permanent p => p
  | .temporary p => p

/-- `base_path` (utils.rs lines 39-45): if `DB_BASE_PATH` is set, wrap its
value verbatim in `BasePath::new`; otherwise create a temporary directory,
panicking (modelled as `Except.error`) with the expect message when creation
fails. `dbBasePath` is `std::env::var("DB_BASE_PATH").ok()`; `tempDir` is the
outcome of `BasePath::new_temp_dir()`. -/
def base_path (dbBasePath : Option String) (tempDir : Option String) :
    Except String BasePath :=
  match dbBasePath with
  | some base => .ok (.permanent base)
  | none =>
    match tempDir with
    | some d => .ok (.temporary d)
    | none => .error "couldn\x27t create a temp dir"

/-- `sc_service::Role`. -/
inductive Role
  | full
  | light
  | authority
deriving DecidableEq

/-- `sc_network::config::TransportConfig` (only the discriminant matters
here). -/
inductive TransportConfig
  | normal
  | memoryOnly
deriving DecidableEq

/-- `sc_service::config::KeystoreConfig`: an on-disk keystore at a path with
an optional password, or the ephemeral in-memory keystore. -/
inductive KeystoreConfig
  | path (p : String) (password : Option String)
  | inMemory
deriving DecidableEq

/-- `sc_service::DatabaseConfig` (variants relevant here). -/
inductive DatabaseConfig
  | rocksDb (path : String) (cache_size : Nat)
  | paritydb (path : String)
deriving DecidableEq

/-- A multiaddress; `Protocol::Memory(port)` is the in-memory transport
address pushed by `default_config`. -/
inductive Multiaddr
  | memory (port : Nat)
deriving DecidableEq

/-- The fields of `sc_network::config::NetworkConfiguration` that
`default_config` touches. -/
structure NetworkConfiguration where
  node_name : String
  client_version : String
  listen_addresses : List Multiaddr
  transport : TransportConfig
  allow_non_globals_in_dht : Bool
deriving DecidableEq

/-- `NetworkConfiguration::new(name, version, ..)`: fresh configuration with
no listen addresses, normal transport, DHT non-globals disallowed. -/
def NetworkConfiguration.new (name version : String) : NetworkConfiguration :=
  { node_name := name, client_version := version, listen_addresses := [],
    transport := .normal, allow_non_globals_in_dht := false }

/-- `sc_informant::OutputFormat`. -/
structure OutputFormat where
  enable_color : Bool
deriving DecidableEq

/-- `sc_executor::WasmExecutionMethod`. -/
inductive WasmExecutionMethod
  | interpreted
  | compiled
deriving DecidableEq

/-- `sc_client_api::ExecutionStrategy` (variants relevant here). -/
inductive ExecutionStrategy
  | nativeWhenPossible
  | alwaysWasm
  | nativeElseWasm
deriving DecidableEq

/-- `sc_client_api::execution_extensions::ExecutionStrategies`. -/
structure ExecutionStrategies where
  syncing : ExecutionStrategy
  importing : ExecutionStrategy
  block_construction : ExecutionStrategy
  offchain_worker : ExecutionStrategy
  other : ExecutionStrategy
deriving DecidableEq

/-- `sc_service::KeepBlocks`. -/
inductive KeepBlocks
  | all
  | someBlocks (n : Nat)
deriving DecidableEq

/-- `sc_service::TransactionStorageMode`. -/
inductive TransactionStorageMode
  | blockBody
  | storageChain
deriving DecidableEq

/-- A chain specification, abstracted over the storage payload type `σ`:
its id, its currently attached storage, and the outcome of
`as_storage_builder().build_storage()` (an error models a failed build). -/
structure ChainSpec (σ : Type) where
  id : String
  storage : Option σ
  buildStorageResult : Except String σ
deriving DecidableEq

/-- `chain_spec.set_storage(s)`. -/
def ChainSpec.set_storage {σ : Type} (c : ChainSpec σ) (s : σ) : ChainSpec σ :=
  { c with storage := some s }

/-- The fields of `sc_service::Configuration` populated by `default_config`
that carry information (fields filled with `Default::default()` or `None`
payloads of external types are omitted). -/
structure Configuration (σ : Type) where
  impl_name : String
  impl_version : String
  role : Role
  network : NetworkConfiguration
  keystore : KeystoreConfig
  database : DatabaseConfig
  state_cache_size : Nat
  chain_spec : ChainSpec σ
  wasm_method : WasmExecutionMethod
  execution_strategies : ExecutionStrategies
  force_authoring : Bool
  disable_grandpa : Bool
  dev_key_seed : Option String
  max_runtime_instances : Nat
  announce_block : Bool
  base_path : Option BasePath
  informant_output_format : OutputFormat
  keep_blocks : KeepBlocks
  transaction_storage : TransactionStorageMode
deriving DecidableEq

/-- `Path::join` on the string level. -/
def pathJoin (a b : String) : String :=
  a ++ "/" ++ b

/-- `sp_keyring::sr25519::Keyring::Alice.to_seed()`. -/
def aliceSeed : String :=
  "//Alice"

/-- `default_config` (utils.rs lines 72-155): resolve the base path, build
genesis storage (panicking, modelled as `Except.error "could not build
storage"`, on failure), attach it to the chain spec, and assemble the
configuration record with the fixed test defaults of the source. -/
def default_config {σ : Type} (dbBasePath tempDir : Option String)
    (spec0 : ChainSpec σ) : Except String (Configuration σ) :=
  match base_path dbBasePath tempDir with
  | .error e => .error e
  | .ok bp =>
    let root_path := pathJoin (pathJoin bp.pathOf "chains") spec0.id
    match spec0.buildStorageResult with
    | .error _ => .error "could not build storage"
    | .ok storage =>
      let chain_spec := spec0.set_storage storage
      let key_seed := aliceSeed
      let network_config := NetworkConfiguration.new ("Test Node for: " ++ key_seed) "network/test/0.1"
      let informant_output_format : OutputFormat := { enable_color := false }
      let network_config := { network_config with allow_non_globals_in_dht := true }
      let network_config :=
        { network_config with listen_addresses := network_config.listen_addresses ++ [Multiaddr.memory 0] }
      let network_config := { network_config with transport := .memoryOnly }
      .ok {
        impl_name := "test-node"
        impl_version := "0.1"
        role := .authority
        network := network_config
        keystore := .path (pathJoin root_path "key") none
        database := .rocksDb (pathJoin root_path "db") 128
        state_cache_size := 16777216
        chain_spec := chain_spec
        wasm_method := .interpreted
        execution_strategies :=
          { syncing := .alwaysWasm, importing := .alwaysWasm,
            block_construction := .alwaysWasm, offchain_worker := .alwaysWasm,
            other := .alwaysWasm }
        force_authoring := false
        disable_grandpa := false
        dev_key_seed := some key_seed
        max_runtime_instances := 8
        announce_block := true
        base_path := some bp
        informant_output_format := informant_output_format
        keep_blocks := .all
        transaction_storage := .blockBody
      }

/-- Sample chain specification used by concrete witnesses. -/
def sampleSpec : ChainSpec Nat :=
  { id := "test", storage := none, buildStorageResult := .ok 0 }

/-- Sample chain specification whose storage build fails. -/
def badSpec : ChainSpec Nat :=
  { id := "test", storage := none, buildStorageResult := .error "boom" }

/-- The configuration `default_config` produces from `sampleSpec` with
`DB_BASE_PATH` set to `/base`, written out literally. -/
def sampleConfig : Configuration Nat :=
  { impl_name := "test-node"
    impl_version := "0.1"
    role := .authority
    network :=
      { node_name := "Test Node for: //Alice", client_version := "network/test/0.1",
        listen_addresses := [.memory 0], transport := .memoryOnly,
        allow_non_globals_in_dht := true }
    keystore := .path "/base/chains/test/key" none
    database := .rocksDb "/base/chains/test/db" 128
    state_cache_size := 16777216
    chain_spec := { id := "test", storage := some 0, buildStorageResult := .ok 0 }
    wasm_method := .interpreted
    execution_strategies :=
      { syncing := .alwaysWasm, importing := .alwaysWasm,
        block_construction := .alwaysWasm, offchain_worker := .alwaysWasm,
        other := .alwaysWasm }
    force_authoring := false
    disable_grandpa := false
    dev_key_seed := some "//Alice"
    max_runtime_instances := 8
    announce_block := true
    base_path := some (.permanent "/base")
    informant_output_format := { enable_color := false }
    keep_blocks := .all
    transaction_storage := .blockBody }

lemma listStartsWith_self (l : List Char) : listStartsWith l l = true := by
  induction l with
  | nil => rfl
  | cons c cs ih => simp [listStartsWith, ih]

lemma strStartsWith_self (s : String) : strStartsWith s s = true :=
  listStartsWith_self s.data

lemma foldlFilter_writeStyle (ts : List (String × LevelFilter)) (b : Builder) :
    (ts.foldl (fun b p => b.filterModule p.1 p.2) b).writeStyle = b.writeStyle := by
  induction ts generalizing b with
  | nil => rfl
  | cons p ts ih => simpa [Builder.filterModule] using ih (b.filterModule p.1 p.2)

lemma logger_writeStyle (envStyle : WriteStyle) (ts : List (String × LevelFilter)) :
    (logger envStyle ts).writeStyle = .always := by
  simp [logger, Builder.setTest, foldlFilter_writeStyle, Builder.setWriteStyle,
    Builder.fromDefaultEnv]

/-- Inversion of a successful `default_config` run: the base path resolved,
the storage build succeeded, and the returned record carries the fields the
source assigns. -/
lemma default_config_ok_inv {σ : Type} (db tmp : Option String)
    (spec0 : ChainSpec σ) (cfg : Configuration σ)
    (h : default_config db tmp spec0 = .ok cfg) :
    ∃ bp s, base_path db tmp = .ok bp ∧ spec0.buildStorageResult = .ok s ∧
      cfg.role = .authority ∧
      cfg.network.transport = .memoryOnly ∧
      cfg.keystore =
        .path (pathJoin (pathJoin (pathJoin bp.pathOf "chains") spec0.id) "key") none ∧
      cfg.informant_output_format.enable_color = false ∧
      cfg.chain_spec.storage = some s := by
  unfold default_config at h
  cases hbp : base_path db tmp with
  | error e => rw [hbp] at h; exact Except.noConfusion h
  | ok bp =>
    rw [hbp] at h
    cases hs : spec0.buildStorageResult with
    | error e => rw [hs] at h; exact Except.noConfusion h
    | ok s =>
      rw [hs] at h
      refine ⟨bp, s, rfl, rfl, ?_⟩
      injection h with h
      subst h
      exact ⟨rfl, rfl, rfl, rfl, rfl⟩

/-- Claim C2: whenever the environment variable `DB_BASE_PATH` is set to a
string `P`, `base_path` returns a `BasePath` handle wrapping exactly `P`
(`BasePath.permanent P`), whatever the temporary-directory machinery would
produce — in particular it succeeds even when no temporary directory could be
created, so none is created or consumed. -/
theorem c2_env_path_verbatim (P : String) (tempDir : Option String) :
    base_path (some P) tempDir = .ok (.permanent P) := rfl

/-- Claim C6: when `DB_BASE_PATH` is unset and temporary-directory creation
fails, `base_path` aborts with the descriptive panic message of the source
and never returns any path. The single `match` on the creation outcome also
shows there is no second attempt. -/
theorem c6_temp_dir_failure_fatal :
    base_path none none = .error "couldn\x27t create a temp dir" ∧
    ∀ p : BasePath, base_path none none ≠ .ok p := by
  refine ⟨rfl, fun p hc => ?_⟩
  simp [base_path] at hc

/-- Claim C1: for every log record accepted by the active filter, the format
callback writes exactly the line `<LEVEL> <TARGET> <MESSAGE>` followed by a
newline to standard output, and schedules exactly one sink send of that same
formatted string without the trailing newline. -/
theorem c1_format_and_tee (b : Builder) (r : Record) (e : Emission)
    (h : logCall b r = some e) :
    e.stdout = formatEntry r ++ "\n" ∧ e.scheduled = [formatEntry r] := by
  cases hb : b.enabled r.level r.target with
  | false => simp [logCall, hb] at h
  | true =>
    simp [logCall, hb] at h
    subst h
    exact ⟨rfl, rfl⟩

/-- Concrete witness for C1: the filter `[("mod", Info)]` accepts an
Info-level record from `mod`, and the emission is as the claim states. -/
theorem c1_format_and_tee_witness :
    logCall (logger .auto [("mod", .info)]) { level := .info, target := "mod", args := "hello" } =
      some { stdout := "INFO mod hello\n", scheduled := ["INFO mod hello"] } ∧
    ({ stdout := "INFO mod hello\n", scheduled := ["INFO mod hello"] } : Emission).stdout =
      formatEntry { level := .info, target := "mod", args := "hello" } ++ "\n" ∧
    ({ stdout := "INFO mod hello\n", scheduled := ["INFO mod hello"] } : Emission).scheduled =
      [formatEntry { level := .info, target := "mod", args := "hello" }] :=
  ⟨by decide,
   c1_format_and_tee (logger .auto [("mod", .info)])
     { level := .info, target := "mod", args := "hello" }
     { stdout := "INFO mod hello\n", scheduled := ["INFO mod hello"] } (by decide)⟩

/-- Claim C9: the builder assembled by `logger` forces the `Always` write
style (colorized output) for every filter configuration and independently of
the write style the environment would have selected. -/
theorem c9_color_always_forced (envStyle : WriteStyle)
    (ts : List (String × LevelFilter)) :
    (logger envStyle ts).writeStyle = .always := by
  simp [logger, Builder.setTest, foldlFilter_writeStyle, Builder.setWriteStyle,
    Builder.fromDefaultEnv]

/-- Claim C3: filter overrides are pushed in the order given, and when the
same module name occurs twice the later level is the one in effect: with
overrides `[(A, l₁), (A, l₂)]` a record from target `A` is accepted exactly
when its severity passes `l₂`. Instantiating `l₁ := Warn`, `l₂ := Error`
gives the claim's example: module `A`'s effective level is `Error`. -/
theorem c3_last_override_wins (envStyle : WriteStyle) (A : String)
    (l₁ l₂ : LevelFilter) (lvl : Level) :
    (logger envStyle [(A, l₁), (A, l₂)]).enabled lvl A = levelPasses lvl l₂ := by
  simp [logger, Builder.enabled, Builder.buildDirectives, Builder.fromDefaultEnv,
    Builder.filterModule, Builder.setWriteStyle, Builder.setTest, sortByLen,
    insertByLen, Directive.nameLen, enabledFrom, Directive.applies,
    strStartsWith_self]

/-- Claim C4: installation is idempotent at the process level. A second call
to the installer leaves the installed state unchanged and reports failure
(the discarded `try_init` error); starting from the uninitialized state, the
state after two installations is exactly the first call's builder; and any
subsequent log call behaves identically after the second installation, so no
output line is duplicated. -/
theorem c4_install_idempotent (st : Option Builder) (es₁ es₂ : WriteStyle)
    (ts₁ ts₂ : List (String × LevelFilter)) (r : Record) :
    (installLogger (installLogger st es₁ ts₁).1 es₂ ts₂).1 = (installLogger st es₁ ts₁).1 ∧
    (installLogger (installLogger st es₁ ts₁).1 es₂ ts₂).2 = false ∧
    (installLogger (installLogger none es₁ ts₁).1 es₂ ts₂).1 = some (logger es₁ ts₁) ∧
    globalLogCall (installLogger (installLogger st es₁ ts₁).1 es₂ ts₂).1 r =
      globalLogCall (installLogger st es₁ ts₁).1 r := by
  cases st <;> simp [installLogger, tryInit]

/-- Claim C5: when the sink is closed at the time the scheduled forwarding
task runs, the task attempts exactly one send, delivers nothing, and aborts
by panicking with the `expect` message `log_stream is dropped`; the logging
call site is unaffected — the emission (stdout line and schedule) is exactly
the one an open sink would have produced — and no retry happens (every task
makes exactly one send attempt). -/
theorem c5_closed_sink_aborts_task_only (b : Builder) (r : Record)
    (e : Emission) (tasks : List TaskRun)
    (h : logCallWithSink b false r = some (e, tasks)) :
    logCallWithSink b true r =
      some (e, [{ outcome := .completed, sendAttempts := 1,
                  delivered := some (formatEntry r) }]) ∧
    tasks = [{ outcome := .panicked "log_stream is dropped", sendAttempts := 1,
               delivered := none }] ∧
    ∀ t ∈ tasks, t.sendAttempts = 1 := by
  cases hb : b.enabled r.level r.target with
  | false => simp [logCallWithSink, logCall, hb] at h
  | true =>
    simp [logCallWithSink, logCall, hb] at h
    obtain ⟨he, ht⟩ := h
    subst he
    subst ht
    refine ⟨?_, ?_, ?_⟩
    · simp [logCallWithSink, logCall, hb, formatCallback, runForwardTask]
    · simp [formatCallback, runForwardTask]
    · simp [formatCallback, runForwardTask]

/-- Concrete witness for C5: a closed sink turns the single forwarding task of
an accepted Info record into a one-attempt panic, while the emission matches
the open-sink run. -/
theorem c5_closed_sink_aborts_task_only_witness :
    logCallWithSink (logger .auto [("mod", .info)]) true
        { level := .info, target := "mod", args := "hello" } =
      some ({ stdout := "INFO mod hello\n", scheduled := ["INFO mod hello"] },
        [{ outcome := .completed, sendAttempts := 1,
           delivered := some (formatEntry { level := .info, target := "mod", args := "hello" }) }]) ∧
    [({ outcome := .panicked "log_stream is dropped", sendAttempts := 1,
        delivered := none } : TaskRun)] =
      [{ outcome := .panicked "log_stream is dropped", sendAttempts := 1, delivered := none }] ∧
    ∀ t ∈ [({ outcome := .panicked "log_stream is dropped", sendAttempts := 1,
              delivered := none } : TaskRun)], t.sendAttempts = 1 :=
  c5_closed_sink_aborts_task_only (logger .auto [("mod", .info)])
    { level := .info, target := "mod", args := "hello" }
    { stdout := "INFO mod hello\n", scheduled := ["INFO mod hello"] }
    [{ outcome := .panicked "log_stream is dropped", sendAttempts := 1, delivered := none }]
    (by decide)

/-- Counterexample to claim C7 as stated: at a concrete input the keystore of
the returned configuration is the on-disk `KeystoreConfig.path` keystore
under the base path, not the ephemeral in-memory keystore the claim
asserts. -/
theorem c7_ephemeral_keystore_counterexample :
    (default_config (some "/base") none sampleSpec).map (fun c => c.keystore) =
      .ok (.path "/base/chains/test/key" none) ∧
    KeystoreConfig.path "/base/chains/test/key" none ≠ KeystoreConfig.inMemory := by
  exact ⟨by decide, by decide⟩

/-- Claim C7 amended: every configuration returned by `default_config` uses
in-memory transport for networking and the local single-node authority role,
and its keystore is the on-disk path keystore at
`<base path>/chains/<chain id>/key` with no password — not an ephemeral
(in-memory) keystore. -/
theorem c7_fixed_test_defaults {σ : Type} (db tmp : Option String)
    (spec0 : ChainSpec σ) (cfg : Configuration σ) (bp : BasePath)
    (h : default_config db tmp spec0 = .ok cfg)
    (hbp : base_path db tmp = .ok bp) :
    cfg.network.transport = .memoryOnly ∧ cfg.role = .authority ∧
    cfg.keystore =
      .path (pathJoin (pathJoin (pathJoin bp.pathOf "chains") spec0.id) "key") none ∧
    cfg.keystore ≠ .inMemory := by
  obtain ⟨bp', s, hbp', hs, hrole, htr, hks, hcol, hst⟩ :=
    default_config_ok_inv db tmp spec0 cfg h
  rw [hbp] at hbp'
  injection hbp' with hbp'
  subst hbp'
  refine ⟨htr, hrole, hks, ?_⟩
  rw [hks]
  intro hc
  exact KeystoreConfig.noConfusion hc

/-- Concrete witness for the amended C7. -/
theorem c7_fixed_test_defaults_witness :
    sampleConfig.network.transport = .memoryOnly ∧ sampleConfig.role = .authority ∧
    sampleConfig.keystore =
      .path (pathJoin (pathJoin (pathJoin (BasePath.permanent "/base").pathOf "chains")
        sampleSpec.id) "key") none ∧
    sampleConfig.keystore ≠ .inMemory :=
  c7_fixed_test_defaults (some "/base") none sampleSpec sampleConfig
    (.permanent "/base") (by decide) (by decide)

/-- Claim C8: every successful `default_config` run returns a configuration
whose chain spec carries the freshly built genesis storage, and when the
storage build fails no configuration is returned — once the base path has
resolved, the run aborts with exactly the diagnostic message
`could not build storage`. -/
theorem c8_genesis_storage_attached {σ : Type} (db tmp : Option String)
    (spec0 : ChainSpec σ) :
    (∀ cfg : Configuration σ, default_config db tmp spec0 = .ok cfg →
      ∃ s, spec0.buildStorageResult = .ok s ∧ cfg.chain_spec.storage = some s) ∧
    (∀ e, spec0.buildStorageResult = .error e →
      ∀ bp, base_path db tmp = .ok bp →
        default_config db tmp spec0 = .error "could not build storage") ∧
    (∀ e, spec0.buildStorageResult = .error e →
      ∀ cfg : Configuration σ, default_config db tmp spec0 ≠ .ok cfg) := by
  refine ⟨?_, ?_, ?_⟩
  · intro cfg h
    obtain ⟨bp, s, hbp, hs, _, _, _, _, hst⟩ := default_config_ok_inv db tmp spec0 cfg h
    exact ⟨s, hs, hst⟩
  · intro e he bp hbp
    unfold default_config
    rw [hbp, he]
  · intro e he cfg h
    obtain ⟨bp, s, hbp, hs, _⟩ := default_config_ok_inv db tmp spec0 cfg h
    rw [he] at hs
    exact Except.noConfusion hs

/-- Concrete witness for C8: the successful run attaches the built storage,
and a failing storage build aborts with the diagnostic message. -/
theorem c8_genesis_storage_attached_witness :
    (∃ s, sampleSpec.buildStorageResult = .ok s ∧
      sampleConfig.chain_spec.storage = some s) ∧
    default_config (some "/base") none badSpec = .error "could not build storage" :=
  ⟨(c8_genesis_storage_attached (some "/base") none sampleSpec).1 sampleConfig (by decide),
   (c8_genesis_storage_attached (some "/base") none badSpec).2.1 "boom" (by decide)
     (.permanent "/base") (by decide)⟩

/-- Claim C10: every configuration returned by `default_config` has the
informant output format's color explicitly disabled, while the log-tee
builder always forces colorized output on; the two settings always differ. -/
theorem c10_informant_color_disabled {σ : Type} (db tmp : Option String)
    (spec0 : ChainSpec σ) (cfg : Configuration σ) (envStyle : WriteStyle)
    (ts : List (String × LevelFilter))
    (h : default_config db tmp spec0 = .ok cfg) :
    cfg.informant_output_format.enable_color = false ∧
    (logger envStyle ts).writeStyle.forcesColor = true ∧
    cfg.informant_output_format.enable_color ≠ (logger envStyle ts).writeStyle.forcesColor := by
  obtain ⟨bp, s, hbp, hs, _, _, _, hcol, _⟩ := default_config_ok_inv db tmp spec0 cfg h
  have hw : (logger envStyle ts).writeStyle.forcesColor = true := by
    rw [logger_writeStyle]
    rfl
  refine ⟨hcol, hw, ?_⟩
  rw [hcol, hw]
  exact fun hc => Bool.noConfusion hc

/-- Concrete witness for C10. -/
theorem c10_informant_color_disabled_witness :
    sampleConfig.informant_output_format.enable_color = false ∧
    (logger .auto []).writeStyle.forcesColor = true ∧
    sampleConfig.informant_output_format.enable_color ≠
      (logger .auto []).writeStyle.forcesColor :=
  c10_informant_color_disabled (some "/base") none sampleSpec sampleConfig
    .auto [] (by decide)

end AcalaUtils
